import Mathlib

/-!
Verification of the collector startup/lifecycle orchestrator
(`cmd/collector/main.go`).

The orchestrator is embedded as a trace semantics: each goroutine of the
program is a function from an environment (the outcomes of the fallible
external calls it makes) to the finite list of observable events it
performs, in program order.  `logger.Fatal` terminates the process, so a
`fatal` event ends the trace of the goroutine that emitted it and nothing
after it in that goroutine ever runs.  Events marking the construction of
a component (`healthServe`, `newSpanHandlerBuilder`, `newChannel`,
`netListen`, ...) are emitted only when the corresponding call succeeds.
-/

/-- Outcomes of the external fallible calls made during one run of the
collector.  `none` means the call returned a nil error.  Per the
documentation of Go's `net/http`, `http.ListenAndServe` always returns a
non-nil error, so in any realizable run `primaryServeRet` and
`zipkinServeRet` are `some _`; both branches are nevertheless modelled,
because the source code has both. -/
structure Env where
  healthServeErr : Option String
  builderErr : Option String
  channelErr : Option String
  listenErr : Option String
  primaryServeRet : Option String
  zipkinServeRet : Option String
deriving DecidableEq, Repr

/-- The fields of `builder.CollectorOptions` that `main` reads. -/
structure CollectorOptions where
  CollectorPort : Nat
  CollectorHTTPPort : Nat
  CollectorZipkinHTTPPort : Nat
  CollectorHealthCheckHTTPPort : Nat
deriving DecidableEq, Repr

/-- Observable events of a run, one constructor per relevant statement of
`cmd/collector/main.go`.  Construction events are emitted on success only. -/
inductive Event where
  /-- `healthcheck.Serve(http.StatusServiceUnavailable, port, logger)`
  succeeded: the health server is up with the given initial status code. -/
  | healthServe (initialStatus : Nat) (port : Nat)
  /-- `logger.Fatal(msg, ...)`: the process terminates with exit code 1. -/
  | fatal (msg : String)
  /-- `builder.NewSpanHandlerBuilder(...)` succeeded. -/
  | newSpanHandlerBuilder
  /-- `tchannel.NewChannel(serviceName, ...)` succeeded. -/
  | newChannel
  /-- `handlerBuilder.BuildHandlers()`. -/
  | buildHandlers
  /-- `server.Register(...)` for the named thrift service. -/
  | registerService (name : String)
  /-- `net.Listen("tcp", ":"+port)` succeeded: the RPC listener is bound. -/
  | netListen (port : Nat)
  /-- `ch.Serve(listener)`. -/
  | chServe
  /-- `mux.NewRouter()` for the named front-end. -/
  | newRouter (frontend : String)
  /-- `RegisterRoutes(r)` mounting the named front-end's route table. -/
  | registerRoutes (frontend : String)
  /-- `recoveryhandler.NewRecoveryHandler(logger, true)`. -/
  | newRecoveryHandler
  /-- `go startZipkinHTTPAPI(...)`: the secondary HTTP task is launched. -/
  | spawnZipkin
  /-- `go func() { http.ListenAndServe ... }()`: the primary HTTP task is
  launched. -/
  | spawnPrimary
  /-- `http.ListenAndServe(":"+port, handler)` was called by the named
  front-end; `recovered` records whether the handler passed to it is
  wrapped in the recovery middleware. -/
  | listenAndServe (frontend : String) (port : Nat) (recovered : Bool)
  /-- `hc.Set(code)`: a health-status write. -/
  | hcSet (code : Nat)
  /-- `hc.Ready()`: the health status transitions to Ready. -/
  | hcReady
  /-- `select { case <-signalsChannel: ... }`: main blocks awaiting a
  termination signal, then returns cleanly. -/
  | awaitSignal
deriving DecidableEq, Repr

/-- Trace of `startZipkinHTTPAPI(logger, zipkinPort, zipkinSpansHandler,
recoveryHandler)`.  The whole body is guarded by `if zipkinPort != 0`;
inside it, a router is built, the zipkin routes are mounted, and
`http.ListenAndServe` is called with the recovery-wrapped router; a
non-nil return is fatal. -/
def startZipkinHTTPAPI (env : Env) (zipkinPort : Nat) : List Event :=
  if zipkinPort ≠ 0 then
    Event.newRouter "zipkin" ::
    Event.registerRoutes "zipkin" ::
    Event.listenAndServe "zipkin" zipkinPort true ::
    (match env.zipkinServeRet with
     | some _ => [Event.fatal "Could not launch service"]
     | none => [])
  else []

/-- Trace of the anonymous primary-HTTP goroutine:
`if err := http.ListenAndServe(httpPortStr, recoveryHandler(r)); err != nil
{ logger.Fatal(...) }; hc.Set(http.StatusInternalServerError)`.
`logger.Fatal` does not return, so on a non-nil error the trace ends at
the `fatal` event and the `hc.Set(500)` statement is never reached; the
`hc.Set(500)` write runs only when `ListenAndServe` returns nil. -/
def primaryHTTPTask (env : Env) (httpPort : Nat) : List Event :=
  Event.listenAndServe "primary" httpPort true ::
  (match env.primaryServeRet with
   | some _ => [Event.fatal "Could not launch service"]
   | none => [Event.hcSet 500])

/-- Trace of the main goroutine: the `Run` closure of the cobra command in
`cmd/collector/main.go`, statement by statement.  Each fallible step is
checked in source order; `logger.Fatal` ends the trace.  Note that the
main goroutine never consults the results of the two HTTP tasks: after
spawning them it signals `hc.Ready()` unconditionally and blocks on the
signal channel. -/
def mainRun (env : Env) (opts : CollectorOptions) : List Event :=
  match env.healthServeErr with
  | some _ => [Event.fatal "Could not start the health check server."]
  | none =>
    Event.healthServe 503 opts.CollectorHealthCheckHTTPPort ::
    match env.builderErr with
    | some _ => [Event.fatal "Unable to set up builder"]
    | none =>
      Event.newSpanHandlerBuilder ::
      match env.channelErr with
      | some _ => [Event.fatal "Unable to create new TChannel"]
      | none =>
        Event.newChannel ::
        Event.buildHandlers ::
        Event.registerService "jaeger" ::
        Event.registerService "zipkincore" ::
        match env.listenErr with
        | some _ => [Event.fatal "Unable to start listening on channel"]
        | none =>
          Event.netListen opts.CollectorPort ::
          Event.chServe ::
          Event.newRouter "primary" ::
          Event.registerRoutes "primary" ::
          Event.newRecoveryHandler ::
          Event.spawnZipkin ::
          Event.spawnPrimary ::
          Event.hcReady ::
          [Event.awaitSignal]

/-- Whether an event is a `logger.Fatal`. -/
def isFatal : Event → Bool
  | .fatal _ => true
  | _ => false

/-- Exit code of a goroutine trace: 1 when it ended in `logger.Fatal`
(which calls `os.Exit(1)`), 0 on a clean return. -/
def exitCode (t : List Event) : Nat :=
  if t.any isFatal then 1 else 0

/-- Whether a trace launched the primary HTTP task. -/
def launchedPrimary (t : List Event) : Bool :=
  t.any fun e => match e with
    | .spawnPrimary => true
    | _ => false

/-- The health tri-state, as exposed by the health server's HTTP codes. -/
inductive HealthStatus where
  | unavailable
  | ready
  | failed
deriving DecidableEq, BEq, Repr

/-- The status denoted by an HTTP status code written to the health
server: 503 is Unavailable, 500 is Failed, anything else is a ready code. -/
def codeToStatus (c : Nat) : HealthStatus :=
  if c = 503 then HealthStatus.unavailable
  else if c = 500 then HealthStatus.failed
  else HealthStatus.ready

/-- The health-status write performed by an event, if any: the initial
status passed to `healthcheck.Serve`, a `hc.Set(code)`, or `hc.Ready()`. -/
def statusOfEvent : Event → Option HealthStatus
  | .healthServe c _ => some (codeToStatus c)
  | .hcSet c => some (codeToStatus c)
  | .hcReady => some HealthStatus.ready
  | _ => none

/-- The sequence of health-status writes of one goroutine trace, in
program order. -/
def statusWrites : List Event → List HealthStatus
  | [] => []
  | e :: t =>
    match statusOfEvent e with
    | some s => s :: statusWrites t
    | none => statusWrites t

/-- All interleavings of two sequences, preserving the order within each. -/
def interleavings : List α → List α → List (List α)
  | [], ys => [ys]
  | x :: xs, [] => [x :: xs]
  | x :: xs, y :: ys =>
    (interleavings xs (y :: ys)).map (fun l => x :: l) ++
    (interleavings (x :: xs) ys).map (fun l => y :: l)

/-- All temporal orders in which the health-status writes of a run can
occur.  The writers are the main goroutine and (once spawned) the primary
HTTP goroutine; the zipkin goroutine never writes the status.  The primary
goroutine starts only after the main goroutine's initial Unavailable
write (its spawn point is after `healthcheck.Serve`), so the initial
write is first; beyond that the two writers are unsynchronized and every
interleaving of their write sequences is possible. -/
def possibleWriteSequences (env : Env) (opts : CollectorOptions) :
    List (List HealthStatus) :=
  let m := statusWrites (mainRun env opts)
  let p :=
    if launchedPrimary (mainRun env opts) then
      statusWrites (primaryHTTPTask env opts.CollectorHTTPPort)
    else []
  match m with
  | [] => [p]
  | s :: rest => (interleavings rest p).map (fun l => s :: l)

/-- The transitions the spec's health state machine allows:
Unavailable to Ready and Ready to Failed. -/
def okTransition : HealthStatus → HealthStatus → Bool
  | .unavailable, .ready => true
  | .ready, .failed => true
  | _, _ => false

/-- Every consecutive pair of the list, starting from the given state, is
an allowed transition. -/
def chainOk : HealthStatus → List HealthStatus → Bool
  | _, [] => true
  | s, t :: r => okTransition s t && chainOk t r

/-- A write sequence is monotone when it starts at Unavailable and every
step is Unavailable to Ready or Ready to Failed; such a sequence makes
each transition at most once and never returns to Unavailable. -/
def monotoneRun : List HealthStatus → Bool
  | [] => true
  | s :: r => (s == HealthStatus.unavailable) && chainOk s r

/-! Concrete environments and options used by witnesses and
counterexamples. -/

/-- A run in which every startup step succeeds.  The two `ListenAndServe`
results are non-nil, as Go's `net/http` documents they always are. -/
def envAllOk : Env :=
  ⟨none, none, none, none, some "http: Server closed", some "http: Server closed"⟩

/-- A run in which `healthcheck.Serve` fails. -/
def envHealthFail : Env :=
  ⟨some "listen tcp :5778: bind: address already in use",
   none, none, none, none, none⟩

/-- A run in which `net.Listen` on the RPC port fails. -/
def envListenFail : Env :=
  ⟨none, none, none,
   some "listen tcp :14267: bind: address already in use", none, none⟩

/-- A run in which the primary front-end's `http.ListenAndServe` returns
a bind error. -/
def envPrimaryBindFail : Env :=
  ⟨none, none, none, none,
   some "listen tcp :14268: bind: address already in use",
   some "http: Server closed"⟩

/-- Default collector ports. -/
def optsStd : CollectorOptions := ⟨14267, 14268, 9411, 5778⟩

/-- Options with the RPC port set to 0.  Go's `net.Listen("tcp", ":0")`
succeeds, binding an ephemeral port, so `envAllOk` is a realizable
environment for these options. -/
def optsPortZero : CollectorOptions := ⟨0, 14268, 9411, 5778⟩

/-- When every synchronous startup step succeeds, the main goroutine's
trace is the full startup sequence of `cmd/collector/main.go`. -/
theorem mainRun_ok (env : Env) (opts : CollectorOptions)
    (h1 : env.healthServeErr = none) (h2 : env.builderErr = none)
    (h3 : env.channelErr = none) (h4 : env.listenErr = none) :
    mainRun env opts =
      [Event.healthServe 503 opts.CollectorHealthCheckHTTPPort,
       Event.newSpanHandlerBuilder,
       Event.newChannel,
       Event.buildHandlers,
       Event.registerService "jaeger",
       Event.registerService "zipkincore",
       Event.netListen opts.CollectorPort,
       Event.chServe,
       Event.newRouter "primary",
       Event.registerRoutes "primary",
       Event.newRecoveryHandler,
       Event.spawnZipkin,
       Event.spawnPrimary,
       Event.hcReady,
       Event.awaitSignal] := by
  simp [mainRun, h1, h2, h3, h4]

/-- C5: for every run, when the secondary (Zipkin) HTTP port is 0, the
body of `startZipkinHTTPAPI` is skipped entirely: its trace is empty, so
no router is built, no route table is mounted, and no listen call is made
for the secondary front-end. -/
theorem c5_zipkin_port_zero_no_serving_action (env : Env) :
    startZipkinHTTPAPI env 0 = [] := by
  simp [startZipkinHTTPAPI]

/-- C7: when `healthcheck.Serve` returns an error, the main goroutine's
trace is the single fatal event: the handler-set builder, the transport
channel, the transport listener, and both HTTP front-end tasks are never
created, and the process exits nonzero. -/
theorem c7_health_bind_failure_constructs_nothing (env : Env)
    (opts : CollectorOptions) (h : env.healthServeErr.isSome = true) :
    mainRun env opts = [Event.fatal "Could not start the health check server."] ∧
    Event.newSpanHandlerBuilder ∉ mainRun env opts ∧
    Event.newChannel ∉ mainRun env opts ∧
    (∀ p, Event.netListen p ∉ mainRun env opts) ∧
    Event.spawnZipkin ∉ mainRun env opts ∧
    Event.spawnPrimary ∉ mainRun env opts ∧
    exitCode (mainRun env opts) = 1 := by
  cases hhs : env.healthServeErr with
  | none => rw [hhs] at h; simp at h
  | some m =>
    refine ⟨?_, ?_, ?_, ?_, ?_, ?_, ?_⟩ <;>
      simp [mainRun, hhs, exitCode, isFatal]

/-- C7 witness: the theorem applied to a concrete failing health bind. -/
theorem c7_witness :
    mainRun envHealthFail optsStd =
      [Event.fatal "Could not start the health check server."] ∧
    Event.newSpanHandlerBuilder ∉ mainRun envHealthFail optsStd ∧
    Event.newChannel ∉ mainRun envHealthFail optsStd ∧
    (∀ p, Event.netListen p ∉ mainRun envHealthFail optsStd) ∧
    Event.spawnZipkin ∉ mainRun envHealthFail optsStd ∧
    Event.spawnPrimary ∉ mainRun envHealthFail optsStd ∧
    exitCode (mainRun envHealthFail optsStd) = 1 :=
  c7_health_bind_failure_constructs_nothing envHealthFail optsStd (by decide)

/-- C6: when the earlier startup steps succeed and `net.Listen` on the
RPC port fails, the main goroutine's trace ends in the fatal event at the
bind step: neither HTTP front-end task is launched, `hc.Ready()` is never
reached, and the process exits nonzero. -/
theorem c6_transport_bind_failure_no_http_tasks (env : Env)
    (opts : CollectorOptions)
    (h1 : env.healthServeErr = none) (h2 : env.builderErr = none)
    (h3 : env.channelErr = none) (h4 : env.listenErr.isSome = true) :
    mainRun env opts =
      [Event.healthServe 503 opts.CollectorHealthCheckHTTPPort,
       Event.newSpanHandlerBuilder,
       Event.newChannel,
       Event.buildHandlers,
       Event.registerService "jaeger",
       Event.registerService "zipkincore",
       Event.fatal "Unable to start listening on channel"] ∧
    Event.spawnZipkin ∉ mainRun env opts ∧
    Event.spawnPrimary ∉ mainRun env opts ∧
    Event.hcReady ∉ mainRun env opts ∧
    exitCode (mainRun env opts) = 1 := by
  cases hle : env.listenErr with
  | none => rw [hle] at h4; simp at h4
  | some m =>
    refine ⟨?_, ?_, ?_, ?_, ?_⟩ <;>
      simp [mainRun, h1, h2, h3, hle, exitCode, isFatal]

/-- C6 witness: the theorem applied to a concrete failing RPC bind. -/
theorem c6_witness :
    mainRun envListenFail optsStd =
      [Event.healthServe 503 optsStd.CollectorHealthCheckHTTPPort,
       Event.newSpanHandlerBuilder,
       Event.newChannel,
       Event.buildHandlers,
       Event.registerService "jaeger",
       Event.registerService "zipkincore",
       Event.fatal "Unable to start listening on channel"] ∧
    Event.spawnZipkin ∉ mainRun envListenFail optsStd ∧
    Event.spawnPrimary ∉ mainRun envListenFail optsStd ∧
    Event.hcReady ∉ mainRun envListenFail optsStd ∧
    exitCode (mainRun envListenFail optsStd) = 1 :=
  c6_transport_bind_failure_no_http_tasks envListenFail optsStd
    (by decide) (by decide) (by decide) (by decide)

/-- C3: in every run in which `hc.Ready()` is reached, the successful
`net.Listen` on the RPC port occurs strictly earlier in the main
goroutine's trace: readiness is never signaled before the transport bind
has completed. -/
theorem c3_transport_bound_before_ready (env : Env) (opts : CollectorOptions)
    (h : Event.hcReady ∈ mainRun env opts) :
    List.Sublist [Event.netListen opts.CollectorPort, Event.hcReady]
      (mainRun env opts) := by
  cases hhs : env.healthServeErr with
  | some m => simp [mainRun, hhs] at h
  | none =>
  cases hbe : env.builderErr with
  | some m => simp [mainRun, hhs, hbe] at h
  | none =>
  cases hce : env.channelErr with
  | some m => simp [mainRun, hhs, hbe, hce] at h
  | none =>
  cases hle : env.listenErr with
  | some m => simp [mainRun, hhs, hbe, hce, hle] at h
  | none =>
    rw [mainRun_ok env opts hhs hbe hce hle]
    exact .cons _ (.cons _ (.cons _ (.cons _ (.cons _ (.cons _ (.cons₂ _
      (.cons _ (.cons _ (.cons _ (.cons _ (.cons _ (.cons _ (.cons₂ _
      (.cons _ .slnil))))))))))))))

/-- C3 witness: the theorem applied to a concrete all-successful run. -/
theorem c3_witness :
    List.Sublist [Event.netListen optsStd.CollectorPort, Event.hcReady]
      (mainRun envAllOk optsStd) :=
  c3_transport_bound_before_ready envAllOk optsStd (by decide)

/-- C4: when the synchronous startup steps succeed, `hc.Ready()` occurs
in the main goroutine's trace after both `go` launches (secondary first,
then primary), and it does so for every value of the two
`ListenAndServe` results: the readiness signal is not conditioned on any
bind acknowledgment from the launched HTTP tasks. -/
theorem c4_ready_follows_launches_unconditionally (env : Env)
    (opts : CollectorOptions)
    (h1 : env.healthServeErr = none) (h2 : env.builderErr = none)
    (h3 : env.channelErr = none) (h4 : env.listenErr = none) :
    List.Sublist [Event.spawnZipkin, Event.spawnPrimary, Event.hcReady]
      (mainRun env opts) := by
  rw [mainRun_ok env opts h1 h2 h3 h4]
  exact .cons _ (.cons _ (.cons _ (.cons _ (.cons _ (.cons _ (.cons _
    (.cons _ (.cons _ (.cons _ (.cons _ (.cons₂ _ (.cons₂ _ (.cons₂ _
    (.cons _ .slnil))))))))))))))

/-- C4 witness: the theorem applied to a concrete run in which both HTTP
serve calls return errors; readiness is still signaled after the two
launches. -/
theorem c4_witness :
    List.Sublist [Event.spawnZipkin, Event.spawnPrimary, Event.hcReady]
      (mainRun envAllOk optsStd) :=
  c4_ready_follows_launches_unconditionally envAllOk optsStd
    (by decide) (by decide) (by decide) (by decide)

/-- C2 counterexample: the claim says a configured RPC port of 0 makes
startup fail fatally at the transport-bind step.  It does not: the code
performs no validation of the port value, and Go's
`net.Listen("tcp", ":0")` succeeds by binding an ephemeral port.  In the
run `envAllOk` with `CollectorPort = 0`, no bind-step fatal occurs, the
run reaches `hc.Ready()`, and the main goroutine's exit code is 0. -/
theorem c2_counterexample_port_zero_run_succeeds :
    Event.fatal "Unable to start listening on channel" ∉
      mainRun envAllOk optsPortZero ∧
    Event.hcReady ∈ mainRun envAllOk optsPortZero ∧
    Event.netListen 0 ∈ mainRun envAllOk optsPortZero ∧
    exitCode (mainRun envAllOk optsPortZero) = 0 := by
  decide

/-- C2 amended: the code does not validate the RPC port; once the earlier
startup steps succeed, the transport-bind step fails fatally exactly when
`net.Listen` returns an error, for every port value including 0. -/
theorem c2_amended_bind_fatal_iff_listen_error (env : Env)
    (opts : CollectorOptions)
    (h1 : env.healthServeErr = none) (h2 : env.builderErr = none)
    (h3 : env.channelErr = none) :
    (Event.fatal "Unable to start listening on channel" ∈ mainRun env opts ↔
      env.listenErr.isSome = true) := by
  cases hle : env.listenErr with
  | some m => simp [mainRun, h1, h2, h3, hle]
  | none => simp [mainRun, h1, h2, h3, hle]

/-- C2 amended witness: the theorem applied to a concrete run with RPC
port 0 and a failing `net.Listen`. -/
theorem c2_amended_witness :
    (Event.fatal "Unable to start listening on channel" ∈
        mainRun envListenFail optsPortZero ↔
      envListenFail.listenErr.isSome = true) :=
  c2_amended_bind_fatal_iff_listen_error envListenFail optsPortZero
    (by decide) (by decide) (by decide)

/-- C1: evaluation of the primary-HTTP goroutine at the failing input.
The claim (and spec section 7) says that when `ListenAndServe` returns an
error the task first writes the health status to a failure code and then
logs fatal.  The code does the opposite: the error branch runs
`logger.Fatal`, which does not return, so the trace is exactly the listen
call followed by the fatal event, with no `hc.Set` anywhere in it — the
`hc.Set(500)` statement placed after the `if` block is unreachable on the
error path. -/
theorem c1_error_path_fatal_without_health_write :
    primaryHTTPTask envPrimaryBindFail 14268 =
      [Event.listenAndServe "primary" 14268 true,
       Event.fatal "Could not launch service"] ∧
    Event.hcSet 500 ∉ primaryHTTPTask envPrimaryBindFail 14268 := by
  decide

/-- C10: in the primary-HTTP goroutine, whenever `ListenAndServe` returns
a non-nil error the trace is the listen call followed by fatal and
contains no health-status write; conversely, the `hc.Set(500)` write
occurs only in runs where `ListenAndServe` returned nil. -/
theorem c10_health_set_only_on_nil_return (env : Env) (port : Nat) :
    (env.primaryServeRet.isSome = true →
      primaryHTTPTask env port =
        [Event.listenAndServe "primary" port true,
         Event.fatal "Could not launch service"] ∧
      Event.hcSet 500 ∉ primaryHTTPTask env port) ∧
    (Event.hcSet 500 ∈ primaryHTTPTask env port →
      env.primaryServeRet = none) := by
  cases hpr : env.primaryServeRet <;> simp [primaryHTTPTask, hpr]

/-- C10 witness: the theorem applied to the concrete erroring run. -/
theorem c10_witness :
    primaryHTTPTask envPrimaryBindFail 14268 =
      [Event.listenAndServe "primary" 14268 true,
       Event.fatal "Could not launch service"] ∧
    Event.hcSet 500 ∉ primaryHTTPTask envPrimaryBindFail 14268 :=
  (c10_health_set_only_on_nil_return envPrimaryBindFail 14268).1 (by decide)

/-- C8: the health status is monotone in every realizable run.  The
hypothesis is the documented contract of Go's `http.ListenAndServe`
(it always returns a non-nil error); under it, every possible temporal
order of the run's health-status writes starts at Unavailable and
performs only the transitions Unavailable to Ready (at most once) and
Ready to Failed (at most once), never returning to Unavailable. -/
theorem c8_health_status_monotone (env : Env) (opts : CollectorOptions)
    (hserve : env.primaryServeRet.isSome = true) :
    ∀ l ∈ possibleWriteSequences env opts, monotoneRun l = true := by
  intro l hl
  obtain ⟨m0, hm0⟩ := Option.isSome_iff_exists.mp hserve
  cases hhs : env.healthServeErr with
  | some m =>
    simp [possibleWriteSequences, mainRun, hhs, launchedPrimary,
      statusWrites, statusOfEvent, interleavings] at hl
    subst hl; rfl
  | none =>
  cases hbe : env.builderErr with
  | some m =>
    simp [possibleWriteSequences, mainRun, hhs, hbe, launchedPrimary,
      statusWrites, statusOfEvent, codeToStatus, interleavings] at hl
    subst hl; rfl
  | none =>
  cases hce : env.channelErr with
  | some m =>
    simp [possibleWriteSequences, mainRun, hhs, hbe, hce, launchedPrimary,
      statusWrites, statusOfEvent, codeToStatus, interleavings] at hl
    subst hl; rfl
  | none =>
  cases hle : env.listenErr with
  | some m =>
    simp [possibleWriteSequences, mainRun, hhs, hbe, hce, hle,
      launchedPrimary, statusWrites, statusOfEvent, codeToStatus,
      interleavings] at hl
    subst hl; rfl
  | none =>
    simp [possibleWriteSequences, mainRun, hhs, hbe, hce, hle,
      launchedPrimary, primaryHTTPTask, hm0, statusWrites, statusOfEvent,
      codeToStatus, interleavings] at hl
    subst hl; rfl

/-- C8 witness: the theorem applied to the concrete all-successful run
and its unique write sequence Unavailable then Ready. -/
theorem c8_witness :
    monotoneRun [HealthStatus.unavailable, HealthStatus.ready] = true :=
  c8_health_status_monotone envAllOk optsStd (by decide)
    [HealthStatus.unavailable, HealthStatus.ready]
    (by
      simp [possibleWriteSequences, mainRun, launchedPrimary,
        primaryHTTPTask, statusWrites, statusOfEvent, codeToStatus,
        interleavings, envAllOk, optsStd])

/-- Modelled from the spec: one log record produced by the recovery
middleware; `hasStackTrace` records that the fault was logged together
with a stack trace. -/
structure RecoveryLog where
  msg : String
  hasStackTrace : Bool
deriving DecidableEq, Repr

/-- Modelled from the spec: `recoveryhandler.NewRecoveryHandler` (package
`pkg/recoveryhandler`, not under src/).  A raw handler maps a request to
`some` status code, or `none` when it raises an unrecovered fault
(a panic).  The middleware wraps it into a total handler: a faulting
request is intercepted, logged with a stack trace, and answered with
exactly one HTTP 500 response; a non-faulting request's response passes
through unchanged. -/
def NewRecoveryHandler (h : Nat → Option Nat) : Nat → Nat × List RecoveryLog :=
  fun req =>
    match h req with
    | some code => (code, [])
    | none => (500, [⟨"recovered from panic", true⟩])

/-- Modelled from the spec: the listener's serving loop (`net/http`, not
under src/): each incoming request is handled independently by the
installed handler, and the loop continues with the remaining requests
afterwards. -/
def serveRequests (h : Nat → Nat × List RecoveryLog) :
    List Nat → List (Nat × List RecoveryLog)
  | [] => []
  | req :: rest => h req :: serveRequests h rest

/-- The serving loop answers every request it receives: a fault in one
request never terminates the listener. -/
theorem serveRequests_length (h : Nat → Nat × List RecoveryLog) :
    ∀ reqs : List Nat, (serveRequests h reqs).length = reqs.length
  | [] => rfl
  | _ :: rest => congrArg Nat.succ (serveRequests_length h rest)

/-- Each position of the serving loop's output is the installed handler's
response to the request at the same position. -/
theorem serveRequests_get (h : Nat → Nat × List RecoveryLog) :
    ∀ (reqs : List Nat) (i : Nat) (hi : i < reqs.length)
      (hi2 : i < (serveRequests h reqs).length),
      (serveRequests h reqs).get ⟨i, hi2⟩ = h (reqs.get ⟨i, hi⟩)
  | _ :: _, 0, _, _ => rfl
  | _ :: rest, i + 1, hi, hi2 =>
    serveRequests_get h rest i (Nat.lt_of_succ_lt_succ hi)
      (Nat.lt_of_succ_lt_succ hi2)
  | [], i, hi, _ => absurd hi (Nat.not_lt_zero i)

/-- C9: both HTTP front-ends call `ListenAndServe` with the
recovery-wrapped router (the `recovered` flag of their listen events is
true), and the recovery middleware contract holds: a faulting request
receives exactly one HTTP 500 response with the fault logged with a stack
trace, a non-faulting request's response is passed through unchanged, and
the serving loop answers every request at its own position — so a fault
in one request never terminates the listener or loses a later request. -/
theorem c9_recovery_middleware_contract (h : Nat → Option Nat)
    (reqs : List Nat) (req : Nat) :
    (∀ env port, (primaryHTTPTask env port).head? =
      some (Event.listenAndServe "primary" port true)) ∧
    (∀ env zport, zport ≠ 0 →
      Event.listenAndServe "zipkin" zport true ∈ startZipkinHTTPAPI env zport) ∧
    (h req = none →
      NewRecoveryHandler h req = (500, [⟨"recovered from panic", true⟩])) ∧
    (∀ c, h req = some c → NewRecoveryHandler h req = (c, [])) ∧
    (serveRequests (NewRecoveryHandler h) reqs).length = reqs.length ∧
    (∀ (i : Nat) (hi : i < reqs.length)
       (hi2 : i < (serveRequests (NewRecoveryHandler h) reqs).length),
       (serveRequests (NewRecoveryHandler h) reqs).get ⟨i, hi2⟩ =
         NewRecoveryHandler h (reqs.get ⟨i, hi⟩)) := by
  refine ⟨?_, ?_, ?_, ?_, ?_, ?_⟩
  · intro env port; rfl
  · intro env zport hz; simp [startZipkinHTTPAPI, hz]
  · intro hn; simp [NewRecoveryHandler, hn]
  · intro c hc; simp [NewRecoveryHandler, hc]
  · exact serveRequests_length _ reqs
  · intro i hi hi2; exact serveRequests_get _ reqs i hi hi2

/-- C9 witness: the contract applied to a concrete handler that faults on
request 0 and succeeds on request 1. -/
theorem c9_witness :
    NewRecoveryHandler (fun r => if r = 0 then none else some 202) 0 =
      (500, [⟨"recovered from panic", true⟩]) :=
  ((c9_recovery_middleware_contract
      (fun r => if r = 0 then none else some 202) [0, 1] 0).2.2.1) (by decide)
